import Mathlib

/-
Verification development for the signal-generation core of the repository
(`signal_generator.py`): the indicator engine, trend detector, multi-factor
scorer and orchestrator (`calculate_technical_indicators`, `detect_trend`,
`generate_comprehensive_signal`, `analyze_asset`).

Modelling conventions (a shallow embedding of the Python/pandas code):

* Machine floats are modelled as exact values with the IEEE special values
  NaN, +inf and -inf made explicit.  A finite value is `PVal.fin a b q`,
  standing for the real number `a + b * sqrt q` with `a b q : ℚ`: the only
  irrational quantity the pipeline produces is the rolling standard
  deviation of the Bollinger bands, which enters every later expression
  linearly and is only ever combined with, and compared against, rational
  quantities, so this closed form is exact for every value the pipeline
  builds.  `PVal.fin a 0 0` (written `PVal.val a`) is the plain rational.
* numpy/pandas elementwise arithmetic never raises: `x/0` is `±inf`,
  `0/0` is NaN, comparisons with NaN are false, `Series.where` replaces
  where the condition is false (NaN compares false), rolling windows with
  the default `min_periods` yield NaN until the window is full or when the
  window contains a NaN, `DataFrame.max(axis=1)` skips NaN entries, and
  `dropna` drops exactly the rows holding a NaN (it keeps infinities).
* A pandas DataFrame is `DFrame`: the base rows (the `timestamp, open,
  high, low, close, volume` records fetched from the database, whose REAL
  columns are modelled as ℚ and are never NaN) plus the derived columns in
  assignment order, as `df[name] = series` adds them in place.
* Python exceptions are the `Except PyErr` monad.  The target-price
  statement of `generate_comprehensive_signal` (lines 288-291) reads the
  name `atr_value`, which is bound nowhere in the function, the class or
  the module, so reaching it raises `NameError`; the code past that point
  (the construction of the `TradingSignal`, with its wall-clock entry and
  expiry strings) is unreachable and the `TradingSignal` record here keeps
  its shape only.  `analyze_asset`'s `try/except` converts every escaping
  exception to `None`.
-/

set_option allowUnsafeReducibility true
attribute [semireducible] Rat.add Rat.mul Rat.sub Rat.inv Rat.ofScientific Rat.div
set_option maxRecDepth 4000000
set_option linter.unusedVariables false

namespace Trading

/-- Sign (-1, 0 or 1) of the real number `a + b * sqrt q`.  When `b = 0` or
`q ≤ 0` the value is read as the plain rational `a` (a nonpositive radicand
never reaches a root in the pipeline: the only radicand is a rolling
variance). -/
def qsign (a b q : ℚ) : Int :=
  if b = 0 ∨ q ≤ 0 then (if a < 0 then -1 else if a = 0 then 0 else 1)
  else if 0 < b then
    (if 0 ≤ a then 1 else if b * b * q < a * a then -1 else if a * a = b * b * q then 0 else 1)
  else
    (if a ≤ 0 then -1 else if b * b * q < a * a then 1 else if a * a = b * b * q then 0 else -1)

/-- A pandas/numpy float value: NaN, an infinity, or the exact finite value
`a + b * sqrt q`. -/
inductive PVal where
  | nan : PVal
  | pinf : PVal
  | ninf : PVal
  | fin (a b q : ℚ) : PVal
deriving DecidableEq, Repr

/-- The finite rational value `x`. -/
def PVal.val (x : ℚ) : PVal := .fin x 0 0

/-- The common radicand of two finite values, when they live in a common
field ℚ(√r): either side rational, or equal radicands.  (Two genuinely
distinct radicands never meet in the pipeline: each row's only irrational
is its own Bollinger σ.) -/
def radCombine (b q d s : ℚ) : Option ℚ :=
  if b = 0 then some (if d = 0 then q else s)
  else if d = 0 ∨ q = s then some q else none

/-- Numeric sign of a value: `none` for NaN. -/
def PVal.sgn : PVal → Option Int
  | .nan => none
  | .pinf => some 1
  | .ninf => some (-1)
  | .fin a b q => some (qsign a b q)

/-- IEEE addition. -/
def PVal.add : PVal → PVal → PVal
  | .nan, _ => .nan
  | _, .nan => .nan
  | .pinf, .ninf => .nan
  | .ninf, .pinf => .nan
  | .pinf, _ => .pinf
  | _, .pinf => .pinf
  | .ninf, _ => .ninf
  | _, .ninf => .ninf
  | .fin a b q, .fin c d s =>
    match radCombine b q d s with
    | some r => .fin (a + c) (b + d) r
    | none => .nan

/-- IEEE negation. -/
def PVal.neg : PVal → PVal
  | .nan => .nan
  | .pinf => .ninf
  | .ninf => .pinf
  | .fin a b q => .fin (-a) (-b) q

/-- IEEE subtraction. -/
def PVal.sub (x y : PVal) : PVal := x.add y.neg

/-- IEEE multiplication (`0 * inf` is NaN). -/
def PVal.mul : PVal → PVal → PVal
  | .nan, _ => .nan
  | _, .nan => .nan
  | .pinf, y =>
    match y.sgn with
    | some s => if s = 0 then .nan else if 0 < s then .pinf else .ninf
    | none => .nan
  | .ninf, y =>
    match y.sgn with
    | some s => if s = 0 then .nan else if 0 < s then .ninf else .pinf
    | none => .nan
  | x, .pinf =>
    match x.sgn with
    | some s => if s = 0 then .nan else if 0 < s then .pinf else .ninf
    | none => .nan
  | x, .ninf =>
    match x.sgn with
    | some s => if s = 0 then .nan else if 0 < s then .ninf else .pinf
    | none => .nan
  | .fin a b q, .fin c d s =>
    match radCombine b q d s with
    | some r => .fin (a * c + b * d * r) (a * d + b * c) r
    | none => .nan

/-- IEEE division as numpy arrays perform it: `x/0` is `±inf` by the sign
of `x`, `0/0` is NaN, `x/±inf` is 0, `inf/0` is `inf`. -/
def PVal.div : PVal → PVal → PVal
  | .nan, _ => .nan
  | _, .nan => .nan
  | .pinf, .pinf => .nan
  | .pinf, .ninf => .nan
  | .ninf, .pinf => .nan
  | .ninf, .ninf => .nan
  | .pinf, .fin c d s =>
    if qsign c d s < 0 then .ninf else .pinf
  | .ninf, .fin c d s =>
    if qsign c d s < 0 then .pinf else .ninf
  | .fin _ _ _, .pinf => .val 0
  | .fin _ _ _, .ninf => .val 0
  | .fin a b q, .fin c d s =>
    if qsign c d s = 0 then
      (if qsign a b q = 0 then .nan else if qsign a b q < 0 then .ninf else .pinf)
    else if d = 0 then .fin (a / c) (b / c) q
    else if b = 0 ∨ q = s then
      let dd := c * c - d * d * s
      if dd = 0 then .nan
      else .fin ((a * c - b * d * s) / dd) ((b * c - a * d) / dd) s
    else .nan

/-- IEEE strict less-than (false whenever a side is NaN). -/
def PVal.lt : PVal → PVal → Bool
  | .nan, _ => false
  | _, .nan => false
  | .ninf, .ninf => false
  | .ninf, _ => true
  | _, .ninf => false
  | .pinf, _ => false
  | _, .pinf => true
  | .fin a b q, .fin c d s =>
    match radCombine b q d s with
    | some r => qsign (a - c) (b - d) r = -1
    | none => false

/-- IEEE less-or-equal (false whenever a side is NaN). -/
def PVal.le : PVal → PVal → Bool
  | .nan, _ => false
  | _, .nan => false
  | .ninf, _ => true
  | _, .ninf => false
  | _, .pinf => true
  | .pinf, _ => false
  | .fin a b q, .fin c d s =>
    match radCombine b q d s with
    | some r => qsign (a - c) (b - d) r ≠ 1
    | none => false

/-- Python `x > y`. -/
def PVal.gt (x y : PVal) : Bool := PVal.lt y x

/-- Python `x >= y`. -/
def PVal.ge (x y : PVal) : Bool := PVal.le y x

/-- Python `x == y` on floats (false whenever a side is NaN). -/
def PVal.peq : PVal → PVal → Bool
  | .nan, _ => false
  | _, .nan => false
  | .pinf, .pinf => true
  | .ninf, .ninf => true
  | .pinf, _ => false
  | _, .pinf => false
  | .ninf, _ => false
  | _, .ninf => false
  | .fin a b q, .fin c d s =>
    match radCombine b q d s with
    | some r => qsign (a - c) (b - d) r = 0
    | none => false

/-- NaN test (what `dropna` checks). -/
def PVal.isnan : PVal → Bool
  | .nan => true
  | _ => false

/-- numpy `abs`. -/
def PVal.pabs : PVal → PVal
  | .nan => .nan
  | .pinf => .pinf
  | .ninf => .pinf
  | .fin a b q => if qsign a b q < 0 then .fin (-a) (-b) q else .fin a b q

/-- Python builtin `min(x, y)`: keeps `x` unless `y < x`, so a NaN first
argument wins. -/
def PVal.pymin (x y : PVal) : PVal := if PVal.lt y x then y else x

/-! Series (column) operations, mirroring the pandas calls the indicator
engine makes.  A column is a `List PVal` aligned with the frame's rows. -/

/-- Sum of a column as numpy folds it (NaN poisons, infinities combine). -/
def sumP (xs : List PVal) : PVal := xs.foldl PVal.add (PVal.val 0)

/-- Mean of a full rolling window. -/
def meanP (xs : List PVal) : PVal := (sumP xs).div (PVal.val xs.length)

/-- Minimum of a full rolling window: NaN when the window holds a NaN
(the default `min_periods` equals the window size), else the least entry. -/
def minP (xs : List PVal) : PVal :=
  if xs.any PVal.isnan then PVal.nan
  else xs.foldl (fun a x => if PVal.lt x a then x else a) PVal.pinf

/-- Maximum of a full rolling window, NaN-poisoned like `minP`. -/
def maxP (xs : List PVal) : PVal :=
  if xs.any PVal.isnan then PVal.nan
  else xs.foldl (fun a x => if PVal.lt a x then x else a) PVal.ninf

/-- The finite rational a value denotes, when it is one. -/
def toRatQ : PVal → Option ℚ
  | .fin a b q => if b = 0 ∨ q = 0 then some a else none
  | _ => none

/-- Sample standard deviation (`ddof = 1`) of a full rolling window, as
`Series.rolling(w).std()` computes it: the square root of the sample
variance, represented exactly as `0 + 1 * sqrt variance`. -/
def stdP (xs : List PVal) : PVal :=
  match xs.mapM toRatQ with
  | none => PVal.nan
  | some qs =>
    let n : ℚ := qs.length
    let m := qs.foldl (· + ·) 0 / n
    PVal.fin 0 1 ((qs.map fun x => (x - m) * (x - m)).foldl (· + ·) 0 / (n - 1))

/-- `Series.rolling(w)` with an aggregator: NaN until the window is full,
then the aggregate of the last `w` entries (current row included). -/
def rollingApply (w : Nat) (f : List PVal → PVal) (xs : List PVal) : List PVal :=
  (List.range xs.length).map fun i =>
    if i + 1 < w then PVal.nan else f ((xs.drop (i + 1 - w)).take w)

/-- `Series.rolling(w).mean()`. -/
def rollingMean (w : Nat) (xs : List PVal) : List PVal := rollingApply w meanP xs

/-- `Series.diff()`: first entry NaN, then consecutive differences. -/
def diffCol (xs : List PVal) : List PVal :=
  match xs with
  | [] => []
  | _ :: rest => PVal.nan :: List.zipWith PVal.sub rest xs

/-- `Series.shift()`: first entry NaN, the rest moved down one row. -/
def shiftCol (xs : List PVal) : List PVal :=
  match xs with
  | [] => []
  | _ :: _ => PVal.nan :: xs.dropLast

/-- `Series.pct_change(periods=n)`: `(x[i] - x[i-n]) / x[i-n]`, NaN for the
first `n` rows. -/
def pctChange (n : Nat) (xs : List PVal) : List PVal :=
  List.zipWith (fun a b => (a.sub b).div b) xs (List.replicate n PVal.nan ++ xs)

/-- Pointwise combination of three aligned columns. -/
def zipWith3 (f : PVal → PVal → PVal → PVal) : List PVal → List PVal → List PVal → List PVal
  | x :: xs, y :: ys, z :: zs => f x y z :: zipWith3 f xs ys zs
  | _, _, _ => []

/-- Row-wise `DataFrame.max(axis=1)` over three columns: NaN entries are
skipped (`skipna` default), all-NaN rows give NaN. -/
def maxRow3 (x y z : PVal) : PVal :=
  match ([x, y, z].filter fun v => !v.isnan) with
  | [] => PVal.nan
  | c :: rest => rest.foldl (fun a v => if PVal.lt a v then v else a) c

/-! The data model: database rows and DataFrames. -/

/-- One row of the `price_data` table as `db.get_latest_prices` returns it
(`timestamp, open, high, low, close, volume`; the REAL columns are exact
rationals here, `volume` included since sqlite is dynamically typed). -/
structure Bar where
  timestamp : Int
  openp : ℚ
  high : ℚ
  low : ℚ
  close : ℚ
  volume : ℚ
deriving DecidableEq, Repr

instance : Inhabited Bar := ⟨⟨0, 0, 0, 0, 0, 0⟩⟩

/-- A pandas DataFrame: the base rows (indexed by timestamp) and the
derived columns in the order `df[name] = series` added them. -/
structure DFrame where
  bars : List Bar
  extra : List (String × List PVal)
deriving DecidableEq, Repr

/-- Number of rows (`len(df)`). -/
def DFrame.rowCount (f : DFrame) : Nat := f.bars.length

/-- The first column stored under a name, if any. -/
def lookupCol : List (String × List PVal) → String → Option (List PVal)
  | [], _ => none
  | (n, c) :: rest, k => if n = k then some c else lookupCol rest k

/-- Replace a column in place or append it, as pandas assignment does. -/
def setCol : List (String × List PVal) → String → List PVal → List (String × List PVal)
  | [], k, v => [(k, v)]
  | (n, c) :: rest, k, v => if n = k then (k, v) :: rest else (n, c) :: setCol rest k v

/-- `df[k] = v` (column assignment mutates the caller's frame; the updated
frame is the caller-visible object state). -/
def DFrame.set (f : DFrame) (k : String) (v : List PVal) : DFrame :=
  ⟨f.bars, setCol f.extra k v⟩

/-- A derived column by name (always present where the pipeline reads one). -/
def DFrame.col (f : DFrame) (k : String) : List PVal := (lookupCol f.extra k).getD []

/-- One cell of a derived column. -/
def DFrame.cell (f : DFrame) (k : String) (i : Nat) : PVal := (f.col k).getD i PVal.nan

/-- The `close` column. -/
def DFrame.closes (f : DFrame) : List PVal := f.bars.map fun b => PVal.val b.close

/-- The `high` column. -/
def DFrame.highCol (f : DFrame) : List PVal := f.bars.map fun b => PVal.val b.high

/-- The `low` column. -/
def DFrame.lowCol (f : DFrame) : List PVal := f.bars.map fun b => PVal.val b.low

/-- The `volume` column. -/
def DFrame.volCol (f : DFrame) : List PVal := f.bars.map fun b => PVal.val b.volume

/-- Keep the rows whose mask entry is true, dropping the rest. -/
def maskList {α : Type} : List Bool → List α → List α
  | k :: ks, x :: xs => if k then x :: maskList ks xs else maskList ks xs
  | _, _ => []

/-- Row `i` holds no NaN in any derived column (the base columns are never
NaN). -/
def rowClean (cols : List (String × List PVal)) (i : Nat) : Bool :=
  cols.all fun c => !(c.2.getD i PVal.nan).isnan

/-- `df.dropna()`: the sub-frame of rows with no NaN anywhere.  It returns
a fresh frame; the caller's frame is untouched. -/
def dropnaF (f : DFrame) : DFrame :=
  let keep := (List.range f.rowCount).map (rowClean f.extra)
  ⟨maskList keep f.bars, f.extra.map fun c => (c.1, maskList keep c.2)⟩

/-- `ewm(span=s, adjust=False).mean()` recurrence step:
`y = (1-α)·prev + α·x`. -/
def ewmStep (alpha : ℚ) (p x : PVal) : PVal :=
  (p.mul (PVal.val (1 - alpha))).add (x.mul (PVal.val alpha))

/-- The tail of the exponential moving average after a seed value. -/
def ewmFrom (alpha : ℚ) (p : PVal) : List PVal → List PVal
  | [] => []
  | x :: rest => ewmStep alpha p x :: ewmFrom alpha (ewmStep alpha p x) rest

/-- `Series.ewm(span=s, adjust=False).mean()` with `α = 2/(s+1)`: the first
output is the first input. -/
def ewmMean (alpha : ℚ) : List PVal → List PVal
  | [] => []
  | x :: rest => x :: ewmFrom alpha x rest

/-! The indicator engine (`calculate_technical_indicators`, lines 58-115).
Its `try/except` returns the frame unchanged on an exception, but no
statement of the body can raise on a well-typed frame (pandas elementwise
arithmetic never raises), so the body is total here. -/

/-- Line 70: the 14-bar rolling average gain,
`(delta.where(delta > 0, 0)).rolling(window=14).mean()` for
`delta = close.diff()` (`where` writes 0 where the condition is false, a
NaN comparing false). -/
def gainCol (close : List PVal) : List PVal :=
  rollingMean 14 ((diffCol close).map fun d => if d.gt (PVal.val 0) then d else PVal.val 0)

/-- Line 71: the 14-bar rolling average loss, losses as positive
magnitudes: `(-delta.where(delta < 0, 0)).rolling(window=14).mean()`. -/
def lossCol (close : List PVal) : List PVal :=
  rollingMean 14
    (((diffCol close).map fun d => if d.lt (PVal.val 0) then d else PVal.val 0).map PVal.neg)

/-- Lines 72-73: `rs = gain / loss; rsi = 100 - (100 / (1 + rs))`. -/
def rsiCol (close : List PVal) : List PVal :=
  (List.zipWith PVal.div (gainCol close) (lossCol close)).map fun r =>
    (PVal.val 100).sub ((PVal.val 100).div ((PVal.val 1).add r))

/-- Lines 61-73: the moving-average and RSI columns (the bars, hence the
`close` series, are untouched by column assignment throughout). -/
def calcMovingAverages (df : DFrame) : DFrame :=
  let close := df.closes
  let df1 := df.set "ema_9" (ewmMean (2/10) close)
  let df2 := df1.set "ema_21" (ewmMean (2/22) close)
  let df3 := df2.set "ema_50" (ewmMean (2/51) close)
  let df4 := df3.set "sma_20" (rollingMean 20 close)
  let df5 := df4.set "sma_50" (rollingMean 50 close)
  df5.set "rsi" (rsiCol close)

/-- Lines 75-87: the MACD and Bollinger columns. -/
def calcMacdBollinger (df : DFrame) : DFrame :=
  let close := df.closes
  let ema12 := ewmMean (2/13) close
  let ema26 := ewmMean (2/27) close
  let macd := List.zipWith PVal.sub ema12 ema26
  let df7 := df.set "macd" macd
  let macdSig := ewmMean (2/10) macd
  let df8 := df7.set "macd_signal" macdSig
  let df9 := df8.set "macd_hist" (List.zipWith PVal.sub macd macdSig)
  let bbMiddle := rollingMean 20 close
  let df10 := df9.set "bb_middle" bbMiddle
  let std2 := (rollingApply 20 stdP close).map fun s => s.mul (PVal.val 2)
  let bbUpper := List.zipWith PVal.add bbMiddle std2
  let bbLower := List.zipWith PVal.sub bbMiddle std2
  let df11 := df10.set "bb_upper" bbUpper
  let df12 := df11.set "bb_lower" bbLower
  df12.set "bb_width"
    (List.zipWith PVal.div (List.zipWith PVal.sub bbUpper bbLower) bbMiddle)

/-- Lines 89-104: the ATR, stochastic and momentum columns. -/
def calcAtrStochMomentum (df : DFrame) : DFrame :=
  let close := df.closes
  let highLow := List.zipWith PVal.sub df.highCol df.lowCol
  let highClose := (List.zipWith PVal.sub df.highCol (shiftCol close)).map PVal.pabs
  let lowClose := (List.zipWith PVal.sub df.lowCol (shiftCol close)).map PVal.pabs
  let trueRange := zipWith3 maxRow3 highLow highClose lowClose
  let df14 := df.set "atr" (rollingMean 14 trueRange)
  let low14 := rollingApply 14 minP df.lowCol
  let high14 := rollingApply 14 maxP df.highCol
  let stochK := zipWith3 (fun c l h => (PVal.val 100).mul ((c.sub l).div (h.sub l)))
    close low14 high14
  let df15 := df14.set "stoch_k" stochK
  let df16 := df15.set "stoch_d" (rollingMean 3 stochK)
  df16.set "momentum" ((pctChange 10 close).map fun m => m.mul (PVal.val 100))

/-- Lines 106-109: the volume columns, only when the series carries volume
(`df['volume'].sum() > 0`). -/
def calcVolumeCols (df : DFrame) : DFrame :=
  if (sumP df.volCol).gt (PVal.val 0) then
    let volSma := rollingMean 20 df.volCol
    let df18 := df.set "volume_sma" volSma
    df18.set "volume_ratio" (List.zipWith PVal.div df.volCol volSma)
  else df

/-- Lines 58-111 of `signal_generator.py`: every indicator column, assigned
in source order onto the caller's frame (column assignment never touches
the bars, so each stage reads the same `close`, `high`, `low` and `volume`
series the function received). -/
def calculate_technical_indicators (df : DFrame) : DFrame :=
  calcVolumeCols (calcAtrStochMomentum (calcMacdBollinger (calcMovingAverages df)))

/-! The trend detector (`detect_trend`, lines 117-142). -/

/-- Trend classification. -/
inductive Trend where
  | BULLISH : Trend
  | BEARISH : Trend
  | NEUTRAL : Trend
deriving DecidableEq, Repr

/-- The `{'trend': ..., 'strength': ...}` dictionary. -/
structure TrendInfo where
  trend : Trend
  strength : PVal
deriving DecidableEq, Repr

/-- The row a scorer reads: the base fields and every indicator cell the
trend detector and scorer consult (`df.iloc[i]`). -/
structure RowView where
  openp : PVal
  high : PVal
  low : PVal
  close : PVal
  ema9 : PVal
  ema21 : PVal
  ema50 : PVal
  rsi : PVal
  macd : PVal
  macdSignal : PVal
  macdHist : PVal
  bbMiddle : PVal
  bbUpper : PVal
  bbLower : PVal
  bbWidth : PVal
  stochK : PVal
  momentum : PVal
deriving DecidableEq, Repr

/-- Row `i` of a frame as the scorer sees it. -/
def rowAt (f : DFrame) (i : Nat) : RowView :=
  let b := f.bars.getD i default
  { openp := PVal.val b.openp
    high := PVal.val b.high
    low := PVal.val b.low
    close := PVal.val b.close
    ema9 := f.cell "ema_9" i
    ema21 := f.cell "ema_21" i
    ema50 := f.cell "ema_50" i
    rsi := f.cell "rsi" i
    macd := f.cell "macd" i
    macdSignal := f.cell "macd_signal" i
    macdHist := f.cell "macd_hist" i
    bbMiddle := f.cell "bb_middle" i
    bbUpper := f.cell "bb_upper" i
    bbLower := f.cell "bb_lower" i
    bbWidth := f.cell "bb_width" i
    stochK := f.cell "stoch_k" i
    momentum := f.cell "momentum" i }

/-- The reference cell `df['ema_21'].iloc[-10]`: position `rowCount - 10`,
nine rows before the latest. -/
def ema21Ref (df : DFrame) : PVal := df.cell "ema_21" (df.rowCount - 10)

/-- The latest cell `df['ema_21'].iloc[-1]`. -/
def ema21Cur (df : DFrame) : PVal := df.cell "ema_21" (df.rowCount - 1)

/-- The slope expression of line 133:
`(df['ema_21'].iloc[-1] - df['ema_21'].iloc[-10]) / df['ema_21'].iloc[-10]`. -/
def ema21Slope (df : DFrame) : PVal := ((ema21Cur df).sub (ema21Ref df)).div (ema21Ref df)

/-- Lines 117-142 of `signal_generator.py` (`detect_trend`): EMA alignment
and price position on the latest row, strength from the ten-bar EMA-21
slope, NEUTRAL with strength 0 otherwise or under 50 rows. -/
def detect_trend (df : DFrame) : TrendInfo :=
  if df.rowCount < 50 then ⟨.NEUTRAL, PVal.val 0⟩ else
  let current := rowAt df (df.rowCount - 1)
  let emaBullish := current.ema9.gt current.ema21 && current.ema21.gt current.ema50
  let emaBearish := current.ema9.lt current.ema21 && current.ema21.lt current.ema50
  let aboveEmas := current.close.gt current.ema9 && current.ema9.gt current.ema21
  let belowEmas := current.close.lt current.ema9 && current.ema9.lt current.ema21
  if emaBullish && aboveEmas then
    ⟨.BULLISH, PVal.pymin ((ema21Slope df).pabs.mul (PVal.val 1000)) (PVal.val 1)⟩
  else if emaBearish && belowEmas then
    ⟨.BEARISH, PVal.pymin ((ema21Slope df).pabs.mul (PVal.val 1000)) (PVal.val 1)⟩
  else ⟨.NEUTRAL, PVal.val 0⟩

/-! The scorer (lines 170-256 of `generate_comprehensive_signal`), one
definition per numbered rule block; each block is one `if/elif` chain of
the source.  The reason strings only feed logging and the unreachable
signal construction, so they are not tracked. -/

/-- Accumulated `(buy_score, sell_score)`. -/
structure Score where
  buy : PVal
  sell : PVal
deriving DecidableEq, Repr

/-- Pointwise accumulation of two score contributions. -/
def Score.plus (s t : Score) : Score := ⟨s.buy.add t.buy, s.sell.add t.sell⟩

/-- No contribution. -/
def Score.zero : Score := ⟨PVal.val 0, PVal.val 0⟩

/-- Rule 1 (lines 176-181): EMA 9/21 crossover, weight 2. -/
def emaCrossScore (current prev : RowView) : Score :=
  if current.ema9.gt current.ema21 && prev.ema9.le prev.ema21 then ⟨PVal.val 2, PVal.val 0⟩
  else if current.ema9.lt current.ema21 && prev.ema9.ge prev.ema21 then ⟨PVal.val 0, PVal.val 2⟩
  else Score.zero

/-- Rule 2 (lines 184-195): the RSI block.  1.5 to buy when RSI is below
30 now and was at or above 30 on the previous row; 1.5 to sell when RSI is
above 70 now and was at or below 70; else 0.5 for the recovery/decline
bands. -/
def rsiScore (current prev : RowView) : Score :=
  if current.rsi.lt (PVal.val 30) && prev.rsi.ge (PVal.val 30) then
    ⟨PVal.val (3/2), PVal.val 0⟩
  else if current.rsi.gt (PVal.val 70) && prev.rsi.le (PVal.val 70) then
    ⟨PVal.val 0, PVal.val (3/2)⟩
  else if (PVal.val 30).le current.rsi && current.rsi.lt (PVal.val 40)
      && prev.rsi.lt current.rsi then
    ⟨PVal.val (1/2), PVal.val 0⟩
  else if (PVal.val 60).lt current.rsi && current.rsi.le (PVal.val 70)
      && prev.rsi.gt current.rsi then
    ⟨PVal.val 0, PVal.val (1/2)⟩
  else Score.zero

/-- Rule 3a (lines 198-203): MACD/signal crossover, weight 2. -/
def macdCrossScore (current prev : RowView) : Score :=
  if current.macd.gt current.macdSignal && prev.macd.le prev.macdSignal then
    ⟨PVal.val 2, PVal.val 0⟩
  else if current.macd.lt current.macdSignal && prev.macd.ge prev.macdSignal then
    ⟨PVal.val 0, PVal.val 2⟩
  else Score.zero

/-- Rule 3b (lines 206-209): MACD histogram momentum, weight 0.5. -/
def macdHistScore (current prev : RowView) : Score :=
  if current.macdHist.gt (PVal.val 0) && current.macdHist.gt prev.macdHist then
    ⟨PVal.val (1/2), PVal.val 0⟩
  else if current.macdHist.lt (PVal.val 0) && current.macdHist.lt prev.macdHist then
    ⟨PVal.val 0, PVal.val (1/2)⟩
  else Score.zero

/-- Rule 4a (lines 212-217): Bollinger band breach, weight 1.5. -/
def bbScore (current prev : RowView) : Score :=
  if current.close.lt current.bbLower && prev.close.ge prev.bbLower then
    ⟨PVal.val (3/2), PVal.val 0⟩
  else if current.close.gt current.bbUpper && prev.close.le prev.bbUpper then
    ⟨PVal.val 0, PVal.val (3/2)⟩
  else Score.zero

/-- Rule 4b (lines 220-226): Bollinger squeeze breakout, weight 0.5. -/
def bbSqueezeScore (current prev : RowView) : Score :=
  if current.bbWidth.lt (PVal.val (1/50)) then
    if current.close.gt current.bbMiddle && current.close.gt prev.close then
      ⟨PVal.val (1/2), PVal.val 0⟩
    else if current.close.lt current.bbMiddle && current.close.lt prev.close then
      ⟨PVal.val 0, PVal.val (1/2)⟩
    else Score.zero
  else Score.zero

/-- Rule 5 (lines 229-234): stochastic reversal, weight 1. -/
def stochScore (current prev : RowView) : Score :=
  if current.stochK.lt (PVal.val 20) && current.stochK.gt prev.stochK then
    ⟨PVal.val 1, PVal.val 0⟩
  else if current.stochK.gt (PVal.val 80) && current.stochK.lt prev.stochK then
    ⟨PVal.val 0, PVal.val 1⟩
  else Score.zero

/-- Rule 6 (lines 237-242): trend confirmation, weight `1.5 × strength`. -/
def trendScore (t : TrendInfo) : Score :=
  if t.trend = Trend.BULLISH then ⟨(PVal.val (3/2)).mul t.strength, PVal.val 0⟩
  else if t.trend = Trend.BEARISH then ⟨PVal.val 0, (PVal.val (3/2)).mul t.strength⟩
  else Score.zero

/-- Rule 7 (lines 245-248): price action, weight 0.5. -/
def priceActionScore (current prev : RowView) : Score :=
  if current.close.gt prev.close && current.close.gt current.openp then
    ⟨PVal.val (1/2), PVal.val 0⟩
  else if current.close.lt prev.close && current.close.lt current.openp then
    ⟨PVal.val 0, PVal.val (1/2)⟩
  else Score.zero

/-- Rule 8 (lines 251-256): momentum, weight 1. -/
def momentumScore (current : RowView) : Score :=
  if current.momentum.gt (PVal.val (1/2)) then ⟨PVal.val 1, PVal.val 0⟩
  else if current.momentum.lt (PVal.val (-(1/2))) then ⟨PVal.val 0, PVal.val 1⟩
  else Score.zero

/-- All eight rule blocks accumulated in source order from zero. -/
def scoreState (current prev : RowView) (t : TrendInfo) : Score :=
  ((((((((((Score.zero.plus
    (emaCrossScore current prev)).plus
    (rsiScore current prev)).plus
    (macdCrossScore current prev)).plus
    (macdHistScore current prev)).plus
    (bbScore current prev)).plus
    (bbSqueezeScore current prev)).plus
    (stochScore current prev)).plus
    (trendScore t)).plus
    (priceActionScore current prev)).plus
    (momentumScore current))

/-! The orchestrator (`generate_comprehensive_signal` and
`analyze_asset`). -/

/-- `self.min_data_requirements.get(timeframe, 100)` (lines 33-37, 147). -/
def minReq (tf : Nat) : Nat :=
  if tf = 1 then 120 else if tf = 5 then 150 else if tf = 15 then 200 else 100

/-- A Python exception escaping a statement. -/
inductive PyErr where
  | nameError : PyErr
deriving DecidableEq, Repr

/-- The `TradingSignal` dataclass.  No run can construct one (the
target-price statement raises first), so the wall-clock entry/expiry
strings and the indicator snapshot are kept as opaque-shaped fields. -/
structure TradingSignal where
  asset : String
  timeframe : Nat
  signalType : String
  direction : String
  strength : PVal
  confidence : PVal
  currentPrice : PVal
  targetPrice : Option PVal
  entryTime : String
  expiryTime : String
deriving DecidableEq, Repr

/-- The frame the scorer works on: indicators computed, NaN rows dropped
(lines 153-156; `dropna` yields a copy the local name rebinds to). -/
def processedFrame (df : DFrame) : DFrame := dropnaF (calculate_technical_indicators df)

/-- The accumulated scores of a frame: the scorer applied to the latest and
previous rows of the processed frame and its trend assessment. -/
def totalScores (df0 : DFrame) : Score :=
  let df := processedFrame df0
  scoreState (rowAt df (df.rowCount - 1)) (rowAt df (df.rowCount - 2)) (detect_trend df)

/-- Lines 277-291: the strength and confidence post-filters, then the
target-price statement, whose read of the unbound name `atr_value` raises
`NameError` (`target_price = current['close'] + (atr_value * 0.9)` on the
BUY path, `- (atr_value * 0.9)` on the SELL path). -/
def emitAttempt (win buyS sellS : PVal) : Except PyErr (Option TradingSignal) :=
  let strength := PVal.pymin (win.div (PVal.val 10)) (PVal.val 1)
  let confidence := win.div (buyS.add sellS)
  if strength.le (PVal.val (1/2)) then .ok none
  else if confidence.lt (PVal.val (68/100)) then .ok none
  else .error PyErr.nameError

/-- Lines 144-323 (`generate_comprehensive_signal`): the history gate, the
indicator pass and dropna, the 20-row gate, the 0.6 trend gate, the scorer,
the tie/threshold decision and the post-filters; every surviving path
reaches the target-price statement and raises. -/
def generate_comprehensive_signal (df0 : DFrame) (asset : String) (tf : Nat) :
    Except PyErr (Option TradingSignal) :=
  if df0.rowCount < minReq tf then .ok none else
  let df := processedFrame df0
  if df.rowCount < 20 then .ok none else
  let t := detect_trend df
  if t.strength.lt (PVal.val (6/10)) then .ok none else
  let s := totalScores df0
  if (s.buy.add s.sell).peq (PVal.val 0) then .ok none else
  let minScore : PVal := if tf = 1 then PVal.val 5 else PVal.val (11/2)
  if s.buy.gt s.sell && s.buy.ge minScore then emitAttempt s.buy s.buy s.sell
  else if s.sell.gt s.buy && s.sell.ge minScore then emitAttempt s.sell s.buy s.sell
  else .ok none

/-- Lines 39-56 (`get_price_data`): the rows the database returned (most
recent first) as a DataFrame indexed and sorted by timestamp; an empty
result stays an empty frame.  The sort is a stable insertion sort and the
table's UNIQUE(asset, timeframe, timestamp) constraint keeps keys
distinct. -/
def insertBar (b : Bar) : List Bar → List Bar
  | [] => [b]
  | c :: rest =>
    if b.timestamp < c.timestamp then b :: c :: rest else c :: insertBar b rest

/-- Ascending stable sort by timestamp (`df.sort_index()`). -/
def sortBars (data : List Bar) : List Bar := data.foldl (fun acc b => insertBar b acc) []

/-- The frame `get_price_data` hands to the orchestrator. -/
def get_price_data (data : List Bar) : DFrame :=
  if data.isEmpty then ⟨[], []⟩ else ⟨sortBars data, []⟩

/-- Lines 325-348, the body of `analyze_asset` without its `try/except`:
empty-data gate, the fixed M5 disablement, the signal generation and the
outer 0.79 confidence acceptance.  A dataclass instance is always truthy,
so `if signal and signal.confidence >= 0.79` is the match below. -/
def analyze_asset_raw (asset : String) (tf : Nat) (data : List Bar) :
    Except PyErr (Option TradingSignal) :=
  let df := get_price_data data
  if df.bars.isEmpty then .ok none
  else if tf = 5 then .ok none
  else
    match generate_comprehensive_signal df asset tf with
    | .error e => .error e
    | .ok none => .ok none
    | .ok (some s) => if s.confidence.ge (PVal.val (79/100)) then .ok (some s) else .ok none

/-- Lines 325-352 (`analyze_asset`): the body under its catch-all
`except`, which logs and returns `None` on any exception. -/
def analyze_asset (asset : String) (tf : Nat) (data : List Bar) : Option TradingSignal :=
  match analyze_asset_raw asset tf data with
  | .ok o => o
  | .error _ => none

deriving instance DecidableEq for Except

/-! Concrete inputs used by the witnesses and counterexamples. -/

/-- Closes of a 100-bar history (timeframe 2, whose minimum history is the
default 100) that passes every gate of the orchestrator with a BUY
decision: a steady rise (rows 0-59, +0.25/bar), a pullback (rows 60-92,
-0.15/bar) and a recovery rally (rows 93-99, +0.33/bar) whose EMA-9
crosses back above the EMA-21 exactly on the last bar.  Every comparison
the pipeline makes on this series has a margin of at least about 0.005 in
price units, so binary floating point evaluates every gate the same way
this exact model does. -/
def closeAtC1 (i : Nat) : ℚ :=
  if i ≤ 59 then 100 + i * (1/4)
  else if i ≤ 92 then 459/4 - (i - 59 : Nat) * (3/20)
  else 549/5 + (i - 92 : Nat) * (33/100)

/-- Bar `i` of the gate-passing series: one-minute timestamps, each bar
opening at the previous close, high/low 0.3 around the close, zero
volume. -/
def barAtC1 (i : Nat) : Bar :=
  { timestamp := i * 60
    openp := if i = 0 then closeAtC1 0 - 1/10 else closeAtC1 (i - 1)
    high := closeAtC1 i + 3/10
    low := closeAtC1 i - 3/10
    close := closeAtC1 i
    volume := 0 }

/-- The gate-passing 100-bar series, most recent first, the order in which
`db.get_latest_prices` returns rows (`ORDER BY timestamp DESC`). -/
def barsC1 : List Bar := ((List.range 100).map barAtC1).reverse

/-- The empty frame (every score is zero on it). -/
def emptyFrame : DFrame := ⟨[], []⟩

/-- Fifteen constant-price bars: a flat market. -/
def flatBars : List Bar :=
  (List.range 15).map fun i => ⟨i, 100, 100, 100, 100, 0⟩

/-- The flat frame the indicator engine receives. -/
def flatFrame : DFrame := ⟨flatBars, []⟩

/-- A strictly rising close column (one gain per bar, no losses). -/
def risingCloses : List PVal := (List.range 15).map fun i => PVal.val (100 + (i : ℚ))

/-- A 50-row frame with EMA columns on which the trend detector reports
BULLISH: EMA-21 is 100 up to row 39, 100.01 from row 40, and 100.08 on row
49, so the slope from `iloc[-10]` (row 40) differs from the slope from the
row 10 bars before the latest (row 39). -/
def frameC9 : DFrame :=
  ⟨(List.range 50).map fun i => ⟨i, 102, 102, 102, 102, 0⟩,
   [("ema_9", List.replicate 50 (PVal.val 101)),
    ("ema_21", (List.range 50).map fun i =>
      if i ≤ 39 then PVal.val 100 else if i ≤ 48 then PVal.val (10001/100) else PVal.val (2502/25)),
    ("ema_50", List.replicate 50 (PVal.val 100))]⟩

/-- A three-bar frame with no derived columns. -/
def frameC10 : DFrame :=
  ⟨[⟨0, 100, 100, 100, 100, 0⟩, ⟨60, 100, 101, 100, 101, 0⟩, ⟨120, 101, 102, 101, 102, 0⟩], []⟩

/-- A row whose RSI cell is `r` (every other cell zero). -/
def rowRsi (r : ℚ) : RowView :=
  { openp := PVal.val 0, high := PVal.val 0, low := PVal.val 0, close := PVal.val 0
    ema9 := PVal.val 0, ema21 := PVal.val 0, ema50 := PVal.val 0, rsi := PVal.val r
    macd := PVal.val 0, macdSignal := PVal.val 0, macdHist := PVal.val 0
    bbMiddle := PVal.val 0, bbUpper := PVal.val 0, bbLower := PVal.val 0
    bbWidth := PVal.val 0, stochK := PVal.val 0, momentum := PVal.val 0 }

/-! Helper lemmas. -/

/-- A value is never strictly below itself. -/
theorem PVal.lt_self (x : PVal) : PVal.lt x x = false := by
  cases x with
  | nan => rfl
  | pinf => rfl
  | ninf => rfl
  | fin a b q =>
    simp only [PVal.lt, radCombine, qsign, sub_self]
    split_ifs <;> simp_all

/-- Comparing a finite value against a rational reduces to a `qsign` test. -/
theorem lt_val_eq (a b q r : ℚ) :
    PVal.lt (PVal.fin a b q) (PVal.val r) = decide (qsign (a - r) b q = -1) := by
  by_cases hb : b = 0 <;> simp [PVal.lt, PVal.val, radCombine, hb]

/-- The mirrored comparison of `lt_val_eq`. -/
theorem val_lt_eq (a b q s : ℚ) :
    PVal.lt (PVal.val s) (PVal.fin a b q) =
      decide (qsign (s - a) (-b) (if b = 0 then 0 else q) = -1) := by
  by_cases hb : b = 0 <;> simp [PVal.lt, PVal.val, radCombine, hb]

set_option maxHeartbeats 1000000 in
/-- A value cannot be both below `r` and above `s` when `r ≤ s` (the sign
test is consistent). -/
theorem qsign_contra (a b q r s : ℚ) (hrs : r ≤ s)
    (h1 : qsign (a - r) b q = -1)
    (h2 : qsign (s - a) (-b) (if b = 0 then 0 else q) = -1) : False := by
  by_cases hb : b = 0
  · rw [if_pos hb] at h2
    rw [hb] at h1
    unfold qsign at h1 h2
    rw [if_pos (Or.inl rfl)] at h1
    rw [if_pos (Or.inl (by rw [hb]; ring))] at h2
    split_ifs at h1 h2 <;> linarith
  · rw [if_neg hb] at h2
    unfold qsign at h1 h2
    by_cases hq : q ≤ 0
    · rw [if_pos (Or.inr hq)] at h1
      rw [if_pos (Or.inr hq)] at h2
      split_ifs at h1 h2 <;> linarith
    · rw [if_neg (by push_neg; exact ⟨hb, lt_of_not_le hq⟩)] at h1
      rw [if_neg (by push_neg; exact ⟨by simpa using hb, lt_of_not_le hq⟩)] at h2
      by_cases hbp : 0 < b
      · rw [if_pos hbp] at h1
        rw [if_neg (by linarith : ¬ (0:ℚ) < -b)] at h2
        split_ifs at h1 h2 <;> nlinarith
      · have hbn : b < 0 := lt_of_le_of_ne (le_of_not_lt hbp) hb
        rw [if_neg hbp] at h1
        rw [if_pos (by linarith : (0:ℚ) < -b)] at h2
        split_ifs at h1 h2 <;> nlinarith

/-- No value satisfies both `x < r` and `x > s` when `r ≤ s`. -/
theorem lt_val_gt_val_false (x : PVal) (r s : ℚ) (hrs : r ≤ s)
    (h1 : x.lt (PVal.val r) = true) (h2 : x.gt (PVal.val s) = true) : False := by
  cases x with
  | nan => simp [PVal.lt, PVal.val] at h1
  | pinf => simp [PVal.lt, PVal.val] at h1
  | ninf => simp [PVal.gt, PVal.lt, PVal.val] at h2
  | fin a b q =>
    unfold PVal.gt at h2
    rw [lt_val_eq] at h1
    rw [val_lt_eq] at h2
    exact qsign_contra a b q r s hrs (of_decide_eq_true h1) (of_decide_eq_true h2)

set_option maxHeartbeats 1000000 in
/-- A value strictly above zero has positive sign. -/
theorem qsign_pos_of (a b q : ℚ)
    (h : qsign (0 - a) (-b) (if b = 0 then 0 else q) = -1) : qsign a b q = 1 := by
  by_cases hb : b = 0
  · rw [if_pos hb] at h
    rw [hb] at h ⊢
    unfold qsign at h ⊢
    rw [if_pos (Or.inl (by ring))] at h
    rw [if_pos (Or.inl rfl)]
    split_ifs at h ⊢ <;> linarith
  · rw [if_neg hb] at h
    unfold qsign at h ⊢
    by_cases hq : q ≤ 0
    · rw [if_pos (Or.inr hq)] at h
      rw [if_pos (Or.inr hq)]
      split_ifs at h ⊢ <;> linarith
    · rw [if_neg (by push_neg; exact ⟨by simpa using hb, lt_of_not_le hq⟩)] at h
      rw [if_neg (by push_neg; exact ⟨hb, lt_of_not_le hq⟩)]
      by_cases hbp : 0 < b
      · rw [if_neg (by linarith : ¬(0:ℚ) < -b)] at h
        rw [if_pos hbp]
        split_ifs at h ⊢ <;>
          first
            | rfl | linarith | nlinarith
            | (ring_nf at *; first | linarith | nlinarith | simp_all)
      · have hbn : b < 0 := lt_of_le_of_ne (le_of_not_lt hbp) hb
        rw [if_pos (by linarith : (0:ℚ) < -b)] at h
        rw [if_neg hbp]
        split_ifs at h ⊢ <;>
          first
            | rfl | linarith | nlinarith
            | (ring_nf at *; first | linarith | nlinarith | simp_all)

/-- The RSI expression collapses to 100 when the average loss is zero and
the numerator is positive: `rs` is `+inf` and `100/(1+rs)` is 0. -/
theorem rsi_point (g : PVal) (hg : (PVal.val 0).lt g = true) :
    (PVal.val 100).sub ((PVal.val 100).div ((PVal.val 1).add (g.div (PVal.val 0)))) =
      PVal.val 100 := by
  cases g with
  | nan => simp [PVal.lt, PVal.val] at hg
  | ninf => simp [PVal.lt, PVal.val] at hg
  | pinf => decide
  | fin a b q =>
    rw [val_lt_eq] at hg
    have hpos : qsign a b q = 1 := qsign_pos_of a b q (of_decide_eq_true hg)
    have hdiv : PVal.div (PVal.fin a b q) (PVal.val 0) = PVal.pinf := by
      simp only [PVal.val, PVal.div]
      rw [if_pos (by decide : qsign 0 0 0 = 0), hpos]
      norm_num
    show PVal.sub _ ((PVal.val 100).div ((PVal.val 1).add
      (PVal.div (PVal.fin a b q) (PVal.val 0)))) = _
    rw [hdiv]
    decide

/-- Indexing a pointwise combination of two columns. -/
theorem get?_zipWith (f : PVal → PVal → PVal) :
    ∀ (as bs : List PVal) (i : Nat),
      (List.zipWith f as bs).get? i =
        match as.get? i, bs.get? i with
        | some a, some b => some (f a b)
        | _, _ => none := by
  intro as
  induction as with
  | nil => intro bs i; cases bs <;> cases i <;> rfl
  | cons a as ih =>
    intro bs i
    cases bs with
    | nil => cases i <;> simp [List.zipWith]
    | cons b bs =>
      cases i with
      | zero => rfl
      | succ j => simpa using ih bs j

/-- Column assignment never touches the rows. -/
theorem set_bars (f : DFrame) (k : String) (v : List PVal) : (DFrame.set f k v).bars = f.bars :=
  rfl

/-- The moving-average stage keeps the rows. -/
theorem bars_calcMovingAverages (f : DFrame) : (calcMovingAverages f).bars = f.bars := rfl

/-- The MACD/Bollinger stage keeps the rows. -/
theorem bars_calcMacdBollinger (f : DFrame) : (calcMacdBollinger f).bars = f.bars := rfl

/-- The ATR/stochastic/momentum stage keeps the rows. -/
theorem bars_calcAtrStochMomentum (f : DFrame) : (calcAtrStochMomentum f).bars = f.bars := rfl

/-- The volume stage keeps the rows. -/
theorem bars_calcVolumeCols (f : DFrame) : (calcVolumeCols f).bars = f.bars := by
  unfold calcVolumeCols
  split <;> rfl

/-- The post-filter stage either abstains or reaches the faulting
target-price statement. -/
theorem emit_cases (w b s : PVal) :
    emitAttempt w b s = Except.ok none ∨ emitAttempt w b s = Except.error PyErr.nameError := by
  unfold emitAttempt
  dsimp only
  split_ifs <;> simp

/-- Every run of the signal generator either abstains or raises the
`NameError` of the target-price statement; no run returns a signal. -/
theorem gen_cases (df : DFrame) (a : String) (tf : Nat) :
    generate_comprehensive_signal df a tf = Except.ok none ∨
    generate_comprehensive_signal df a tf = Except.error PyErr.nameError := by
  unfold generate_comprehensive_signal
  dsimp only
  repeat' split
  all_goals first
    | exact emit_cases ..
    | exact Or.inl rfl

/-- The body of `analyze_asset` either returns `None` or lets the
`NameError` escape to the handler. -/
theorem raw_cases (a : String) (tf : Nat) (d : List Bar) :
    analyze_asset_raw a tf d = Except.ok none ∨
    analyze_asset_raw a tf d = Except.error PyErr.nameError := by
  unfold analyze_asset_raw
  by_cases h5 : (get_price_data d).bars.isEmpty
  · simp [h5]
  · by_cases htf : tf = 5
    · simp [h5, htf]
    · simp only [h5, htf, if_false, Bool.false_eq_true, if_neg]
      rcases gen_cases (get_price_data d) a tf with h | h <;> rw [h] <;> simp

set_option maxHeartbeats 80000000 in
/-- Evaluation of the whole signal generator at the gate-passing series:
every gate passes (trend strength 1, buy score 5.5 against 0, strength
0.55, confidence 1) and the run ends in the `NameError` of the unbound
`atr_value`. -/
theorem genC1_eval :
    generate_comprehensive_signal (get_price_data barsC1) "EURUSD" 2 =
      Except.error PyErr.nameError := by decide

set_option maxHeartbeats 4000000 in
/-- The same evaluation seen from the body of `analyze_asset`: the
exception reaches its `try/except`. -/
theorem rawC1_eval :
    analyze_asset_raw "EURUSD" 2 barsC1 = Except.error PyErr.nameError := by
  unfold analyze_asset_raw
  dsimp only
  rw [if_neg (by decide), if_neg (by decide), genC1_eval]

/-- RSI = 100 whenever the rolling average loss is zero and the rolling
average gain is positive: `rs` is `+inf` and `100 - 100/(1+rs)` is 100. -/
theorem rsi_loss_zero (close : List PVal) (i : Nat)
    (hl : (lossCol close).getD i PVal.nan = PVal.val 0)
    (hg : (PVal.val 0).lt ((gainCol close).getD i PVal.nan) = true) :
    (rsiCol close).getD i PVal.nan = PVal.val 100 := by
  rw [List.getD_eq_get?] at hl ⊢
  rw [List.getD_eq_get?] at hg
  cases hLq : (lossCol close).get? i with
  | none => rw [hLq] at hl; exact absurd hl (by decide)
  | some lv =>
    rw [hLq] at hl
    simp only [Option.getD_some] at hl
    subst hl
    cases hGq : (gainCol close).get? i with
    | none => rw [hGq] at hg; simp [PVal.lt, PVal.val] at hg
    | some gv =>
      rw [hGq] at hg
      simp only [Option.getD_some] at hg
      unfold rsiCol
      rw [List.get?_map, get?_zipWith, hGq, hLq]
      simpa using rsi_point gv hg

/-! The claims. -/

/-- C1.  The spec says an emitted signal's `target_price` is the close
offset by `0.9 * ATR` in the signal's direction, but the target-price
statement of `generate_comprehensive_signal` reads the unbound name
`atr_value`: at the concrete input `barsC1` (asset EURUSD, timeframe 2)
every gate passes with a BUY decision, the statement is reached, and the
run raises `NameError` instead of computing any target price. -/
theorem C1_target_price_raises :
    generate_comprehensive_signal (get_price_data barsC1) "EURUSD" 2 =
      Except.error PyErr.nameError :=
  genC1_eval

/-- C2.  For every asset, timeframe and bar series, `analyze_asset`
returns no signal: every gate-passing path raises the `NameError` of the
unbound `atr_value`, which the surrounding handler converts to `None`, and
every other path returns `None` outright. -/
theorem C2_analyze_asset_never_signals (asset : String) (tf : Nat) (data : List Bar) :
    analyze_asset asset tf data = none := by
  unfold analyze_asset
  rcases raw_cases asset tf data with h | h <;> rw [h]

/-- C3.  `analyze_asset` never raises to its caller: whenever its body
ends in an exception, the catch-all handler turns the outcome into
`None`, so the only observable outcomes are a signal or no signal. -/
theorem C3_exception_becomes_none (asset : String) (tf : Nat) (data : List Bar) (e : PyErr)
    (h : analyze_asset_raw asset tf data = Except.error e) :
    analyze_asset asset tf data = none := by
  unfold analyze_asset
  rw [h]

/-- C3 witness: at the gate-passing series the body of `analyze_asset`
does end in an exception, and the caller still sees `None`. -/
theorem C3_witness :
    analyze_asset_raw "EURUSD" 2 barsC1 = Except.error PyErr.nameError ∧
    analyze_asset "EURUSD" 2 barsC1 = none :=
  ⟨rawC1_eval, C3_exception_becomes_none "EURUSD" 2 barsC1 PyErr.nameError rawC1_eval⟩

/-- C4.  The fixed business rule of lines 332-335: with timeframe 5 every
call of `analyze_asset` abstains, whatever the data. -/
theorem C4_timeframe5_always_abstains (asset : String) (data : List Bar) :
    analyze_asset asset 5 data = none := by
  unfold analyze_asset analyze_asset_raw
  dsimp only
  by_cases h : (get_price_data data).bars.isEmpty
  · rw [if_pos h]
  · rw [if_neg h, if_pos rfl]

/-- C5.  Whenever the accumulated buy score equals the accumulated sell
score, `generate_comprehensive_signal` produces no signal, however large
the tied scores: the zero-total gate or the strict-majority decision
rejects the tie. -/
theorem C5_score_tie_no_signal (df : DFrame) (asset : String) (tf : Nat)
    (h : (totalScores df).buy = (totalScores df).sell) :
    generate_comprehensive_signal df asset tf = Except.ok none := by
  unfold generate_comprehensive_signal
  dsimp only
  repeat' split
  any_goals rfl
  all_goals
    rename_i hc
    rw [h] at hc
    simp [PVal.gt, PVal.lt_self] at hc

/-- C5 witness: the empty series scores zero against zero and the
generator abstains on it. -/
theorem C5_witness :
    (totalScores emptyFrame).buy = (totalScores emptyFrame).sell ∧
    generate_comprehensive_signal emptyFrame "EURUSD" 1 = Except.ok none :=
  ⟨by decide, C5_score_tie_no_signal emptyFrame "EURUSD" 1 (by decide)⟩

/-- C6.  The spec bounds the confidence and strength of every signal
`analyze_asset` returns, but no signal is ever returned: at the concrete
gate-passing series (buy score 5.5, strength 0.55, confidence 1, all
inside the claimed bounds) the caller still receives `None`, because the
target-price statement raises before any `TradingSignal` is built. -/
theorem C6_no_signal_even_when_bounds_met :
    analyze_asset "EURUSD" 2 barsC1 = none := by
  unfold analyze_asset
  rw [rawC1_eval]

/-- C7 counterexample: on a flat 15-bar series the 14-bar average loss is
zero, yet the indicator engine's RSI for that row is NaN (dropped by
`dropna`), not 100: the claim fails when the average gain is zero too,
because `rs = 0/0` is NaN. -/
theorem C7_counterexample :
    (lossCol flatFrame.closes).getD 14 PVal.nan = PVal.val 0 ∧
    ((calculate_technical_indicators flatFrame).cell "rsi" 14).isnan = true ∧
    ((rsiCol flatFrame.closes).getD 14 PVal.nan).isnan = true := by decide

/-- C7 as amended: RSI = 100 for a row whose 14-bar average loss is zero,
provided its average gain is positive; a flat window (both averages zero)
leaves RSI undefined instead, and no division fault occurs either way. -/
theorem C7_rsi_100_when_loss_zero_gain_positive (close : List PVal) (i : Nat)
    (hl : (lossCol close).getD i PVal.nan = PVal.val 0)
    (hg : (PVal.val 0).lt ((gainCol close).getD i PVal.nan) = true) :
    (rsiCol close).getD i PVal.nan = PVal.val 100 :=
  rsi_loss_zero close i hl hg

/-- C7 witness: a strictly rising series has average loss 0, positive
average gain, and RSI exactly 100 at row 14. -/
theorem C7_witness : (rsiCol risingCloses).getD 14 PVal.nan = PVal.val 100 :=
  C7_rsi_100_when_loss_zero_gain_positive risingCloses 14 (by decide) (by decide)

/-- C8 counterexample: a row pair with RSI rising from 20 to 50 — the
claim's "crosses from below 30 to at or above 30" — receives no 1.5-point
contribution from the RSI rule: the rule block scores it zero. -/
theorem C8_counterexample :
    (rowRsi 20).rsi.lt (PVal.val 30) = true ∧
    (PVal.val 30).le (rowRsi 50).rsi = true ∧
    rsiScore (rowRsi 50) (rowRsi 20) = Score.zero := by decide

/-- C8 as amended: the RSI extreme rule adds 1.5 to the buy score exactly
when RSI is below 30 on the current row having been at or above 30 on the
previous row (a downward cross into oversold), and 1.5 to the sell score
exactly when RSI is above 70 now having been at or below 70 before (an
upward cross into overbought) — the reverse directions of the claim. -/
theorem C8_rsi_extreme_rule_direction (cur prev : RowView) :
    (((rsiScore cur prev).buy = PVal.val (3/2)) ↔
      (cur.rsi.lt (PVal.val 30) = true ∧ prev.rsi.ge (PVal.val 30) = true)) ∧
    (((rsiScore cur prev).sell = PVal.val (3/2)) ↔
      (cur.rsi.gt (PVal.val 70) = true ∧ prev.rsi.le (PVal.val 70) = true)) := by
  unfold rsiScore
  split_ifs with h1 h2 h3 h4
  · rw [Bool.and_eq_true] at h1
    refine ⟨iff_of_true rfl h1, iff_of_false ?_ ?_⟩
    · intro h; norm_num [Score.zero, PVal.val] at h
    · rintro ⟨hgt, _⟩; exact lt_val_gt_val_false cur.rsi 30 70 (by norm_num) h1.1 hgt
  · refine ⟨iff_of_false ?_ ?_, iff_of_true rfl (by rw [Bool.and_eq_true] at h2; exact h2)⟩
    · intro h; norm_num [Score.zero, PVal.val] at h
    · rintro ⟨x, y⟩; exact h1 (by rw [x, y]; rfl)
  · refine ⟨iff_of_false ?_ ?_, iff_of_false ?_ ?_⟩
    · intro h; norm_num [Score.zero, PVal.val] at h
    · rintro ⟨x, y⟩; exact h1 (by rw [x, y]; rfl)
    · intro h; norm_num [Score.zero, PVal.val] at h
    · rintro ⟨x, y⟩; exact h2 (by rw [x, y]; rfl)
  · refine ⟨iff_of_false ?_ ?_, iff_of_false ?_ ?_⟩
    · intro h; norm_num [Score.zero, PVal.val] at h
    · rintro ⟨x, y⟩; exact h1 (by rw [x, y]; rfl)
    · intro h; norm_num [Score.zero, PVal.val] at h
    · rintro ⟨x, y⟩; exact h2 (by rw [x, y]; rfl)
  · refine ⟨iff_of_false ?_ ?_, iff_of_false ?_ ?_⟩
    · intro h; norm_num [Score.zero, PVal.val] at h
    · rintro ⟨x, y⟩; exact h1 (by rw [x, y]; rfl)
    · intro h; norm_num [Score.zero, PVal.val] at h
    · rintro ⟨x, y⟩; exact h2 (by rw [x, y]; rfl)

/-- C9 counterexample: a 50-row BULLISH frame on which the reported
strength (from `iloc[-10]`, row 40) is 7000/10001, while the formula with
the reference ten bars before the latest (row 39) gives 4/5. -/
theorem C9_counterexample :
    detect_trend frameC9 = ⟨Trend.BULLISH, PVal.val (7000/10001)⟩ ∧
    PVal.pymin ((((frameC9.cell "ema_21" 49).sub (frameC9.cell "ema_21" 39)).div
      (frameC9.cell "ema_21" 39)).pabs.mul (PVal.val 1000)) (PVal.val 1) = PVal.val (4/5) ∧
    (7000/10001 : ℚ) < 4/5 := by decide

/-- C9 as amended: when the trend detector classifies a frame as BULLISH
or BEARISH, the reported strength is `min(|slope| * 1000, 1)` for the
EMA-21 slope between the latest row and `iloc[-10]` — the row nine bars
(not ten) before the latest. -/
theorem C9_strength_formula (df : DFrame)
    (h : (detect_trend df).trend = Trend.BULLISH ∨ (detect_trend df).trend = Trend.BEARISH) :
    (detect_trend df).strength =
      PVal.pymin ((ema21Slope df).pabs.mul (PVal.val 1000)) (PVal.val 1) := by
  unfold detect_trend at h ⊢
  dsimp only at h ⊢
  split_ifs at h ⊢ <;> simp_all

/-- C9 witness: the formula holds at the concrete BULLISH frame. -/
theorem C9_witness :
    (detect_trend frameC9).strength =
      PVal.pymin ((ema21Slope frameC9).pabs.mul (PVal.val 1000)) (PVal.val 1) :=
  C9_strength_formula frameC9 (Or.inl (by decide))

/-- C10 counterexample: after `calculate_technical_indicators` the
caller's frame holds an `ema_9` column it did not hold before — the
columns are not what they were, refuting the no-mutation claim. -/
theorem C10_counterexample :
    lookupCol frameC10.extra "ema_9" = none ∧
    lookupCol (calculate_technical_indicators frameC10).extra "ema_9" =
      some [PVal.val 100, PVal.val (501/5), PVal.val (2514/25)] := by decide

/-- C10 as amended: `calculate_technical_indicators` adds indicator
columns to the caller's frame in place, but the rows — the timestamps and
the `open/high/low/close/volume` values — are exactly what they were. -/
theorem C10_rows_unchanged (df : DFrame) :
    (calculate_technical_indicators df).bars = df.bars := by
  unfold calculate_technical_indicators
  rw [bars_calcVolumeCols, bars_calcAtrStochMomentum, bars_calcMacdBollinger,
    bars_calcMovingAverages]

end Trading
